import Mathlib

/-!
Verification of the GoodGuyBot parlay job system: a shallow embedding of
the quota ledger (`cogs/parlay.py` SQLite helpers), the job orchestrator
(`Parlay.parlay`), the tolerant JSON extraction / validation / salvage
pipeline (`utils/parlay_research.py`) and the date normalizer
(`utils/sportsdata.py`), together with theorems settling the frozen claims.
-/

set_option autoImplicit false

namespace GoodGuyBot

/-! ## Quota ledger (cogs/parlay.py, SQLite table `parlay_usage`) -/

/-- Job status values allowed by the table CHECK constraint:
`status IN ('pending','success','failed')`. -/
inductive JStatus where
  | pending
  | success
  | failed
deriving DecidableEq, Repr

/-- One row of `parlay_usage` (job_id is the PRIMARY KEY). -/
structure JobRecord where
  job_id : String
  user_id : Nat
  et_date : String
  status : JStatus
deriving DecidableEq, Repr

/-- The ledger is the set of rows; job_id is the primary key, so operations
treat it as the lookup key. -/
abbrev Ledger := List JobRecord

/-- Constant `DAILY_MAX_PARLAYS = 3` from cogs/parlay.py. -/
def DAILY_MAX_PARLAYS : Int := 3

/-- Model of `_create_pending_job`: `INSERT OR REPLACE INTO parlay_usage
(job_id, user_id, et_date, status) VALUES (?, ?, ?, 'pending')` — the row
with the same primary key (if any) is replaced. -/
def create_pending_job (jobId : String) (userId : Nat) (etDate : String)
    (L : Ledger) : Ledger :=
  ⟨jobId, userId, etDate, .pending⟩ :: L.filter (fun r => r.job_id ≠ jobId)

/-- Model of `_set_job_status`: `UPDATE parlay_usage SET status=? WHERE
job_id=?` — an unconditional overwrite of the status of every row with the
given job_id (at most one, by the primary key). -/
def set_job_status (jobId : String) (st : JStatus) (L : Ledger) : Ledger :=
  L.map (fun r => if r.job_id = jobId then { r with status := st } else r)

/-- Model of `_count_success_today`: `SELECT COUNT(1) FROM parlay_usage WHERE
user_id=? AND et_date=? AND status='success'`. -/
def count_success_today (userId : Nat) (etDate : String) (L : Ledger) : Nat :=
  (L.filter (fun r =>
    r.user_id == userId && r.et_date == etDate && r.status == JStatus.success)).length

/-- Model of `_remaining_today`: `max(0, DAILY_MAX_PARLAYS - used)`, where
`used` is the success count for (user, today).  The ET date returned by
`_today_et_str()` is abstracted as the `etDate` parameter. -/
def remaining_today (userId : Nat) (etDate : String) (L : Ledger) : Int :=
  max 0 (DAILY_MAX_PARLAYS - count_success_today userId etDate L)

/-! ## Date normalization (utils/sportsdata.py `normalize_date`) -/

/-- Python `str.lower()` restricted to the characters that occur here
(ASCII): lower-case every character. -/
def py_lower (s : String) : String := String.mk (s.data.map Char.toLower)

/-- Model of `normalize_date`.  The values `datetime.now(ET).strftime("%Y-%m-%d")`
and `(datetime.now(ET) + timedelta(days=1)).strftime("%Y-%m-%d")` are
abstracted as the parameters `todayS` and `tomorrowS`; `None` is `none`, and
Python's falsiness of the empty string is modelled explicitly. -/
def normalize_date (todayS tomorrowS : String) (date_str : Option String) : String :=
  match date_str with
  | none => todayS
  | some s =>
    if s = "" then todayS
    else if py_lower s = "today" then todayS
    else if py_lower s = "tomorrow" ∨ py_lower s = "tmr" ∨
            py_lower s = "tommorow" ∨ py_lower s = "tomorow" then tomorrowS
    else s

/-! ## JSON values and a model of `json.loads`

The parser mirrors Python's `json.loads` on the fragment exercised here:
objects, arrays, double-quoted strings with escapes, numbers (kept as their
lexeme), `true`/`false`/`null`; unescaped control characters inside strings
are rejected (CPython's strict mode) and trailing garbage fails the parse. -/

inductive Json where
  | null
  | bool (b : Bool)
  | num (lexeme : String)
  | str (s : String)
  | arr (elems : List Json)
  | obj (fields : List (String × Json))
deriving Repr

/-- Character constants written via code points. -/
def qc : Char := Char.ofNat 34

/-- Single-quote character. -/
def sq : Char := Char.ofNat 39

/-- Backtick character. -/
def bt : Char := Char.ofNat 96

/-- Left curly brace. -/
def lb : Char := Char.ofNat 123

/-- Right curly brace. -/
def rb : Char := Char.ofNat 125

/-- JSON whitespace accepted between tokens by `json.loads`. -/
def json_ws (c : Char) : Bool := c = ' ' || c = '\t' || c = '\n' || c = '\r'

/-- Skip JSON whitespace. -/
def skip_ws (l : List Char) : List Char := l.dropWhile json_ws

/-- Hexadecimal digit value. -/
def hex_val (c : Char) : Option Nat :=
  if '0' ≤ c ∧ c ≤ '9' then some (c.toNat - 48)
  else if 'a' ≤ c ∧ c ≤ 'f' then some (c.toNat - 87)
  else if 'A' ≤ c ∧ c ≤ 'F' then some (c.toNat - 55)
  else none

/-- Parse the body of a JSON string after the opening quote; returns the
decoded characters and the remainder after the closing quote. -/
def parse_string_body : Nat → List Char → Option (List Char × List Char)
  | 0, _ => none
  | _ + 1, [] => none
  | fuel + 1, c :: rest =>
    if c = qc then some ([], rest)
    else if c = '\\' then
      match rest with
      | [] => none
      | e :: rest2 =>
        if e = qc then (parse_string_body fuel rest2).map (fun p => (qc :: p.1, p.2))
        else if e = '\\' then (parse_string_body fuel rest2).map (fun p => ('\\' :: p.1, p.2))
        else if e = '/' then (parse_string_body fuel rest2).map (fun p => ('/' :: p.1, p.2))
        else if e = 'b' then (parse_string_body fuel rest2).map (fun p => (Char.ofNat 8 :: p.1, p.2))
        else if e = 'f' then (parse_string_body fuel rest2).map (fun p => (Char.ofNat 12 :: p.1, p.2))
        else if e = 'n' then (parse_string_body fuel rest2).map (fun p => ('\n' :: p.1, p.2))
        else if e = 'r' then (parse_string_body fuel rest2).map (fun p => ('\r' :: p.1, p.2))
        else if e = 't' then (parse_string_body fuel rest2).map (fun p => ('\t' :: p.1, p.2))
        else if e = 'u' then
          match rest2 with
          | h1 :: h2 :: h3 :: h4 :: rest3 =>
            match hex_val h1, hex_val h2, hex_val h3, hex_val h4 with
            | some a, some b, some c2, some d =>
              (parse_string_body fuel rest3).map
                (fun p => (Char.ofNat (((a * 16 + b) * 16 + c2) * 16 + d) :: p.1, p.2))
            | _, _, _, _ => none
          | _ => none
        else none
    else if c.toNat < 32 then none
    else (parse_string_body fuel rest).map (fun p => (c :: p.1, p.2))

/-- Parse a JSON number, returning its lexeme and the remainder. -/
def parse_number (l : List Char) : Option (List Char × List Char) :=
  let signAndRest : List Char × List Char :=
    match l with
    | '-' :: rest => (['-'], rest)
    | _ => ([], l)
  let l1 := signAndRest.2
  let intd := l1.takeWhile Char.isDigit
  let l2 := l1.dropWhile Char.isDigit
  if intd.isEmpty then none
  else
    let fracAndRest : List Char × List Char :=
      match l2 with
      | '.' :: rest =>
        let fd := rest.takeWhile Char.isDigit
        if fd.isEmpty then ([], l2) else ('.' :: fd, rest.dropWhile Char.isDigit)
      | _ => ([], l2)
    let l3 := fracAndRest.2
    let expAndRest : List Char × List Char :=
      match l3 with
      | e :: rest =>
        if e = 'e' ∨ e = 'E' then
          match rest with
          | s :: rest2 =>
            if s = '+' ∨ s = '-' then
              let ed := rest2.takeWhile Char.isDigit
              if ed.isEmpty then ([], l3) else (e :: s :: ed, rest2.dropWhile Char.isDigit)
            else
              let ed := rest.takeWhile Char.isDigit
              if ed.isEmpty then ([], l3) else (e :: ed, rest.dropWhile Char.isDigit)
          | [] => ([], l3)
        else ([], l3)
      | [] => ([], l3)
    some (signAndRest.1 ++ intd ++ fracAndRest.1 ++ expAndRest.1, expAndRest.2)

mutual

/-- Parse one JSON value at the head of the input (no leading whitespace). -/
def parse_val : Nat → List Char → Option (Json × List Char)
  | 0, _ => none
  | _ + 1, [] => none
  | fuel + 1, c :: rest =>
    if c = qc then
      (parse_string_body fuel rest).map (fun p => (Json.str (String.mk p.1), p.2))
    else if c = lb then parse_obj_items fuel (skip_ws rest)
    else if c = '[' then parse_arr_items fuel (skip_ws rest)
    else if ['t', 'r', 'u', 'e'].isPrefixOf (c :: rest) then
      some (Json.bool true, (c :: rest).drop 4)
    else if ['f', 'a', 'l', 's', 'e'].isPrefixOf (c :: rest) then
      some (Json.bool false, (c :: rest).drop 5)
    else if ['n', 'u', 'l', 'l'].isPrefixOf (c :: rest) then
      some (Json.null, (c :: rest).drop 4)
    else (parse_number (c :: rest)).map (fun p => (Json.num (String.mk p.1), p.2))

/-- Parse array items after the opening bracket (whitespace skipped). -/
def parse_arr_items : Nat → List Char → Option (Json × List Char)
  | 0, _ => none
  | fuel + 1, l =>
    match l with
    | ']' :: rest => some (Json.arr [], rest)
    | _ =>
      match parse_val fuel l with
      | none => none
      | some (v, rest) => parse_arr_rest fuel [v] (skip_ws rest)

/-- Parse the rest of an array after at least one item. -/
def parse_arr_rest : Nat → List Json → List Char → Option (Json × List Char)
  | 0, _, _ => none
  | fuel + 1, acc, l =>
    match l with
    | ']' :: rest => some (Json.arr acc.reverse, rest)
    | ',' :: rest =>
      match parse_val fuel (skip_ws rest) with
      | none => none
      | some (v, rest2) => parse_arr_rest fuel (v :: acc) (skip_ws rest2)
    | _ => none

/-- Parse object members after the opening brace (whitespace skipped). -/
def parse_obj_items : Nat → List Char → Option (Json × List Char)
  | 0, _ => none
  | fuel + 1, l =>
    match l with
    | [] => none
    | c :: rest =>
      if c = rb then some (Json.obj [], rest)
      else
        match parse_member fuel (c :: rest) with
        | none => none
        | some (kv, rest2) => parse_obj_rest fuel [kv] (skip_ws rest2)

/-- Parse one `"key": value` member. -/
def parse_member : Nat → List Char → Option ((String × Json) × List Char)
  | 0, _ => none
  | fuel + 1, l =>
    match l with
    | [] => none
    | c :: rest =>
      if c = qc then
        match parse_string_body fuel rest with
        | none => none
        | some (key, rest2) =>
          match skip_ws rest2 with
          | ':' :: rest3 =>
            match parse_val fuel (skip_ws rest3) with
            | none => none
            | some (v, rest4) => some ((String.mk key, v), rest4)
          | _ => none
      else none

/-- Parse the rest of an object after at least one member. -/
def parse_obj_rest : Nat → List (String × Json) → List Char → Option (Json × List Char)
  | 0, _, _ => none
  | fuel + 1, acc, l =>
    match l with
    | [] => none
    | c :: rest =>
      if c = rb then some (Json.obj acc.reverse, rest)
      else if c = ',' then
        match parse_member fuel (skip_ws rest) with
        | none => none
        | some (kv, rest2) => parse_obj_rest fuel (kv :: acc) (skip_ws rest2)
      else none

end

/-- Model of `json.loads`: parse a full document, requiring the whole input
to be consumed (up to trailing whitespace). -/
def json_parse_chars (l : List Char) : Option Json :=
  match parse_val (2 * l.length + 4) (skip_ws l) with
  | some (v, rest) => if (skip_ws rest).isEmpty then some v else none
  | none => none

/-! ## Extraction (`_extract_json_from_text`) -/

/-- Python `\s` / `str.strip()` whitespace (ASCII part). -/
def is_py_space (c : Char) : Bool :=
  c = ' ' || c = '\t' || c = '\n' || c = '\r' || c = Char.ofNat 11 || c = Char.ofNat 12

/-- Python `str.lstrip()`. -/
def py_lstrip (l : List Char) : List Char := l.dropWhile is_py_space

/-- Python `str.rstrip()`. -/
def py_rstrip (l : List Char) : List Char := (l.reverse.dropWhile is_py_space).reverse

/-- Python `str.strip()`. -/
def py_strip (l : List Char) : List Char := py_rstrip (py_lstrip l)

/-- The code-fence marker: three backticks. -/
def fence_pat : List Char := [bt, bt, bt]

/-- Suffix of `l` after the first occurrence of `pat`, if any. -/
def after_marker (pat : List Char) : List Char → Option (List Char)
  | [] => none
  | c :: rest =>
    if pat.isPrefixOf (c :: rest) then some ((c :: rest).drop pat.length)
    else after_marker pat rest

/-- Minimal non-empty content before a closing fence `\s*` ``` (the
non-greedy `(.+?)\s*` ``` part of the fence regex). -/
def content_to_fence : List Char → Option (List Char)
  | [] => none
  | c :: rest =>
    if fence_pat.isPrefixOf (rest.dropWhile is_py_space) then some [c]
    else
      match content_to_fence rest with
      | some cs => some (c :: cs)
      | none => none

/-- Model of the fence-stripping step
`re.search(r"` ``` `(?:json)?\s*(.+?)\s*` ``` `", s, DOTALL | IGNORECASE)`:
on a match, `s` is replaced by the stripped group; otherwise unchanged. -/
def strip_fences (l : List Char) : List Char :=
  match after_marker fence_pat l with
  | none => l
  | some rest =>
    let rest1 := if (rest.take 4).map Char.toLower = ['j', 's', 'o', 'n'] then rest.drop 4 else rest
    let rest2 := rest1.dropWhile is_py_space
    match content_to_fence rest2 with
    | some content => py_strip content
    | none => l

/-- Python `str.find` for a single character (`none` for `-1`). -/
def py_find (c : Char) : List Char → Option Nat
  | [] => none
  | d :: rest => if d = c then some 0 else (py_find c rest).map (· + 1)

/-- Python `str.rfind` for a single character. -/
def py_rfind (c : Char) (l : List Char) : Option Nat :=
  (py_find c l.reverse).map (fun k => l.length - 1 - k)

/-- Array-span fallback of the isolation step (`s[start_arr:end_arr+1]`). -/
def isolate_arr (s : List Char) : List Char :=
  match py_find '[' s, py_rfind ']' s with
  | some i, some j => if i < j then (s.drop i).take (j + 1 - i) else s
  | _, _ => s

/-- Model of the span isolation: prefer the largest `{...}` span, else the
largest `[...]` span, else the whole text. -/
def isolate_span (s : List Char) : List Char :=
  match py_find lb s, py_rfind rb s with
  | some i, some j => if i < j then (s.drop i).take (j + 1 - i) else isolate_arr s
  | _, _ => isolate_arr s

/-- Fuel-driven scan for the trailing-comma repair: delete a comma (and the
whitespace after it) when the next non-whitespace character closes a brace
or bracket; scanning resumes after the closing character.  The fuel only
drives structural recursion; it never runs out when it starts at the input
length. -/
def remove_tc_fuel : Nat → List Char → List Char
  | 0, l => l
  | _ + 1, [] => []
  | fuel + 1, c :: rest =>
    if c = ',' then
      match rest.dropWhile is_py_space with
      | b :: tail =>
        if b = rb ∨ b = ']' then b :: remove_tc_fuel fuel tail
        else ',' :: remove_tc_fuel fuel rest
      | [] => ',' :: rest
    else c :: remove_tc_fuel fuel rest

/-- Model of `re.sub(r",\s*([}\]])", r"\1", t)`. -/
def remove_trailing_commas (l : List Char) : List Char := remove_tc_fuel (l.length + 1) l

/-- Replace every single quote not preceded by a backslash (the lookbehind
`(?<!\\)'`) by a double quote; `prev` is the previous character of the
original text. -/
def convert_sq_go (prev : Option Char) : List Char → List Char
  | [] => []
  | c :: rest =>
    (if c = sq ∧ prev ≠ some '\\' then qc else c) :: convert_sq_go (some c) rest

/-- Model of the single-quote repair: applied only when a single quote
occurs and no double quote occurs in the first 80 characters. -/
def quote_convert (t : List Char) : List Char :=
  if t.contains sq && !((t.take 80).contains qc) then convert_sq_go none t else t

/-- Characters stripped by the last-ditch `t.strip("` ``` ` \n\r\t")`. -/
def strip_set_chars : List Char := [bt, ' ', '\n', '\r', '\t']

/-- Python `str.strip` with an explicit character set. -/
def py_strip_set (l : List Char) : List Char :=
  ((l.dropWhile (strip_set_chars.contains ·)).reverse.dropWhile
    (strip_set_chars.contains ·)).reverse

/-- The `try: json.loads(t) except: json.loads(t.strip("` ``` ` \n\r\t"))`
step. -/
def try_parse (t : List Char) : Option Json :=
  match json_parse_chars t with
  | some d => some d
  | none => json_parse_chars (py_strip_set t)

/-- Wrap a top-level array as
`{"parlay": data, "rationales": [], "risks": "", "sources": []}`. -/
def wrap_top_level (d : Json) : Json :=
  match d with
  | .arr xs =>
    .obj [("parlay", .arr xs), ("rationales", .arr []), ("risks", .str ""), ("sources", .arr [])]
  | _ => d

/-- Model of `_extract_json_from_text`: strip, fence-strip, isolate span,
strip, repair trailing commas, repair single quotes, parse (`none` models
the raised exception), and wrap a top-level array. -/
def extract_json_from_text (text : String) : Option Json :=
  let s0 := py_strip text.toList
  let s1 := strip_fences s0
  let cand := isolate_span s1
  let t0 := py_strip cand
  let t1 := remove_trailing_commas t0
  let t2 := quote_convert t1
  (try_parse t2).map wrap_top_level

/-! ## Strict schema (Pydantic models `ParlayLeg`, `ParlayResult`) -/

/-- The `ParlayLeg` Pydantic model after validation. -/
structure ParlayLeg where
  market : String
  selection : String
  book_examples : List String
  confidence : String
deriving DecidableEq, Repr

/-- The `ParlayResult` Pydantic model after validation. -/
structure ParlayResult where
  parlay : List ParlayLeg
  rationales : List String
  risks : String
  sources : List String
deriving DecidableEq, Repr

/-- Lookup in a parsed JSON object; the last occurrence wins, matching the
dict produced by `json.loads` for duplicate keys. -/
def obj_get_last (kvs : List (String × Json)) (k : String) : Option Json :=
  match kvs with
  | [] => none
  | (k2, v) :: rest =>
    match obj_get_last rest k with
    | some w => some w
    | none => if k2 = k then some v else none

/-- Pydantic `str` field validation: only a JSON string is accepted. -/
def as_str : Json → Except String String
  | .str s => .ok s
  | _ => .error "Input should be a valid string"

/-- Element-wise validation with first-error semantics (pydantic list
validation and the salvage list comprehension). -/
def map_except {α β : Type} (f : α → Except String β) : List α → Except String (List β)
  | [] => .ok []
  | x :: xs =>
    match f x with
    | .error e => .error e
    | .ok y =>
      match map_except f xs with
      | .error e => .error e
      | .ok ys => .ok (y :: ys)

/-- Whether an `Except` value is a success. -/
def is_ok {ε α : Type} : Except ε α → Bool
  | .ok _ => true
  | .error _ => false

/-- Pydantic `List[str]` field validation. -/
def as_str_list : Json → Except String (List String)
  | .arr xs => map_except as_str xs
  | _ => .error "Input should be a valid list"

/-- Python `v.strip().lower()`. -/
def py_strip_lower (s : String) : String :=
  String.mk ((py_strip s.toList).map Char.toLower)

/-- The `_conf_ok` field validator: normalize and check membership in
`{low, medium, high}`. -/
def conf_ok (v : String) : Except String String :=
  let v2 := py_strip_lower v
  if v2 = "low" ∨ v2 = "medium" ∨ v2 = "high" then .ok v2
  else .error "confidence must be one of: low|medium|high"

/-- Validation / construction of one `ParlayLeg` from a JSON value (both
`model_validate` on a list item and the `ParlayLeg(**leg)` call): `market`,
`selection`, `confidence` are required strings, `book_examples` defaults to
the empty list, extra keys are ignored, and the confidence validator runs
last on the raw string. -/
def leg_from_json : Json → Except String ParlayLeg
  | .obj kvs =>
    match (match obj_get_last kvs "market" with
           | some v => as_str v
           | none => Except.error "Field required: market") with
    | .error e => .error e
    | .ok market =>
      match (match obj_get_last kvs "selection" with
             | some v => as_str v
             | none => Except.error "Field required: selection") with
      | .error e => .error e
      | .ok selection =>
        match (match obj_get_last kvs "book_examples" with
               | some v => as_str_list v
               | none => Except.ok []) with
        | .error e => .error e
        | .ok books =>
          match (match obj_get_last kvs "confidence" with
                 | some v => as_str v
                 | none => Except.error "Field required: confidence") with
          | .error e => .error e
          | .ok confRaw =>
            match conf_ok confRaw with
            | .error e => .error e
            | .ok conf => .ok ⟨market, selection, books, conf⟩
  | _ => .error "Input should be a valid dictionary"

/-- Model of `ParlayResult.model_validate(data)`: all four fields default
when absent, must have the declared shapes when present, extra keys are
ignored, each leg is validated. -/
def model_validate_result (j : Json) : Except String ParlayResult :=
  match j with
  | .obj kvs =>
    match (match obj_get_last kvs "parlay" with
           | none => Except.ok ([] : List Json)
           | some (.arr xs) => Except.ok xs
           | some _ => Except.error "Input should be a valid list: parlay") with
    | .error e => .error e
    | .ok legsJ =>
      match map_except leg_from_json legsJ with
      | .error e => .error e
      | .ok legs =>
        match (match obj_get_last kvs "rationales" with
               | none => Except.ok ([] : List String)
               | some v => as_str_list v) with
        | .error e => .error e
        | .ok rationales =>
          match (match obj_get_last kvs "risks" with
                 | none => Except.ok ""
                 | some v => as_str v) with
          | .error e => .error e
          | .ok risks =>
            match (match obj_get_last kvs "sources" with
                   | none => Except.ok ([] : List String)
                   | some v => as_str_list v) with
            | .error e => .error e
            | .ok sources => .ok ⟨legs, rationales, risks, sources⟩
  | _ => .error "Input should be a valid dictionary"

/-- Python `dict.setdefault(k, v)`. -/
def set_default (kvs : List (String × Json)) (k : String) (v : Json) :
    List (String × Json) :=
  if (obj_get_last kvs k).isSome then kvs else kvs ++ [(k, v)]

/-- The four `data.setdefault(...)` calls in `run_deep_research` (applied
only when the extracted value is a dict). -/
def set_defaults (j : Json) : Json :=
  match j with
  | .obj kvs =>
    .obj (set_default (set_default (set_default (set_default kvs
      "parlay" (.arr [])) "rationales" (.arr [])) "risks" (.str "")) "sources" (.arr []))
  | j2 => j2

/-! ## Python value semantics used by the salvage path -/

/-- Python truthiness of a JSON-decoded value. -/
def py_truthy : Json → Bool
  | .null => false
  | .bool b => b
  | .num s => s.toList.any (fun c => '1' ≤ c && c ≤ '9')
  | .str s => !(s == "")
  | .arr xs => !xs.isEmpty
  | .obj kvs => !kvs.isEmpty

mutual

/-- Approximation of Python `repr` for JSON-decoded values (only reached
when the salvage path stringifies a non-scalar). -/
def py_repr : Json → String
  | .null => "None"
  | .bool true => "True"
  | .bool false => "False"
  | .num s => s
  | .str s => String.mk (sq :: s.toList ++ [sq])
  | .arr xs => "[" ++ py_repr_list xs ++ "]"
  | .obj kvs => String.mk [lb] ++ py_repr_obj kvs ++ String.mk [rb]

/-- Comma-separated reprs of list elements. -/
def py_repr_list : List Json → String
  | [] => ""
  | [x] => py_repr x
  | x :: y :: rest => py_repr x ++ ", " ++ py_repr_list (y :: rest)

/-- Comma-separated reprs of dict items. -/
def py_repr_obj : List (String × Json) → String
  | [] => ""
  | [(k, v)] => String.mk (sq :: k.toList ++ [sq]) ++ ": " ++ py_repr v
  | (k, v) :: kv :: rest =>
    String.mk (sq :: k.toList ++ [sq]) ++ ": " ++ py_repr v ++ ", " ++ py_repr_obj (kv :: rest)

end

/-- Python `str(x)` for a JSON-decoded value. -/
def py_str : Json → String
  | .str s => s
  | .num s => s
  | .bool true => "True"
  | .bool false => "False"
  | .null => "None"
  | .arr xs => py_repr (.arr xs)
  | .obj kvs => py_repr (.obj kvs)

/-- Python iteration over a JSON-decoded value: lists yield elements,
strings yield one-character strings, dicts yield their keys; numbers,
booleans and `None` raise `TypeError` (modelled as `none`). -/
def py_iter : Json → Option (List Json)
  | .arr xs => some xs
  | .str s => some (s.toList.map (fun c => .str (String.mk [c])))
  | .obj kvs => some (kvs.map (fun kv => Json.str kv.1))
  | _ => none

/-- Whether a JSON value is an object (Python `isinstance(leg, dict)`). -/
def Json.isObj : Json → Bool
  | .obj _ => true
  | _ => false

/-- The `x or []` / iterate / coerce pattern used for `rationales` and
`sources`: falsy becomes `[]`, otherwise iterate (failing on non-iterables)
and stringify every element. -/
def coerce_str_list (v : Json) : Except String (List String) :=
  if py_truthy v then
    match py_iter v with
    | some xs => Except.ok (xs.map py_str)
    | none => Except.error "TypeError: object is not iterable"
  else Except.ok []

/-- Model of the salvage path in `run_deep_research`: rebuild a
`ParlayResult` with `ParlayLeg(**leg)` for every dict element of
`data.get("parlay") or []` (one failing leg aborts the whole salvage, since
the list comprehension raises), stringified rationales and sources, and
`str(data.get("risks") or "")`; any raised exception is the `error` case. -/
def salvage (data : Json) : Except String ParlayResult :=
  match data with
  | .obj kvs =>
    match (if py_truthy ((obj_get_last kvs "parlay").getD .null) then
             match py_iter ((obj_get_last kvs "parlay").getD .null) with
             | some xs => Except.ok xs
             | none => Except.error "TypeError: object is not iterable"
           else Except.ok ([] : List Json)) with
    | .error e => .error e
    | .ok base =>
      match map_except leg_from_json (base.filter Json.isObj) with
      | .error e => .error e
      | .ok legs =>
        match coerce_str_list ((obj_get_last kvs "rationales").getD .null) with
        | .error e => .error e
        | .ok rats =>
          match coerce_str_list ((obj_get_last kvs "sources").getD .null) with
          | .error e => .error e
          | .ok srcs =>
            .ok ⟨legs, rats,
                 (if py_truthy ((obj_get_last kvs "risks").getD .null) then
                    py_str ((obj_get_last kvs "risks").getD .null) else ""), srcs⟩
  | _ => .error "AttributeError: object has no attribute get"

/-! ## Public runner `run_deep_research` -/

/-- Outcome of `_call_deep_research` together with the `output_text`
attribute of the response: either the call raised (after its retries), or it
returned a response whose `output_text` may be absent. -/
inductive CallResult where
  | failed (e : String)
  | ok (output_text : Option String)

/-- Three backticks as a string. -/
def bt3 : String := String.mk [bt, bt, bt]

/-- The capped diagnostic preview `(text[:300] + " …") if len(text) > 300
else text`. -/
def preview_text (text : String) : String :=
  if 300 < text.length then String.mk (text.toList.take 300) ++ " …" else text

/-- Model of `run_deep_research`: empty-query rejection, call failure,
missing `output_text`, extraction failure, validation, salvage. -/
def run_deep_research (user_query : String) (call : CallResult) :
    Option ParlayResult × Option String :=
  if String.mk (py_strip user_query.toList) = "" then
    (none, some "Please specify what you want researched (teams, props, angles).")
  else
    match call with
    | .failed e => (none, some ("Deep Research request failed: " ++ e))
    | .ok none => (none, some "Empty response from the research model.")
    | .ok (some text) =>
      match extract_json_from_text text with
      | none =>
        (none, some ("Model did not return valid JSON. Preview: " ++ bt3 ++ preview_text text ++ bt3))
      | some data0 =>
        match model_validate_result (set_defaults data0) with
        | .ok parsed => (some parsed, none)
        | .error ve =>
          match salvage (set_defaults data0) with
          | .ok rough => (some rough, none)
          | .error _ =>
            (none, some ("Model output failed validation: " ++ ve ++ "\nPreview: " ++
              bt3 ++ preview_text text ++ bt3))

/-! ## Worker retry loop `_call_deep_research` -/

/-- Outcome of the structured-output call on one loop iteration: success, a
`TypeError` (older SDK rejecting `response_format`), or another exception. -/
inductive StructuredOutcome (R : Type) where
  | success (resp : R)
  | typeErr
  | fail (e : String)

/-- The behaviour of the external SDK on one loop iteration: the structured
call's outcome and, if it raises `TypeError`, the fallback call's outcome. -/
structure AttemptSpec (R : Type) where
  structured : StructuredOutcome R
  fallback : Except String R

/-- The backoff `time.sleep((2 ** attempt) + (0.1 * attempt))`, in tenths of
a second. -/
def sleep_tenths (attempt : Nat) : Nat := 10 * 2 ^ attempt + attempt

/-- The base (exponential) part of the backoff, in tenths of a second. -/
def base_tenths (attempt : Nat) : Nat := 10 * 2 ^ attempt

/-- The per-attempt additive term `0.1 * attempt`, in tenths of a second. -/
def jitter_tenths (attempt : Nat) : Nat := attempt

/-- The error recorded by one failing loop iteration (`last_err`), if the
iteration fails. -/
def attempt_error {R : Type} (a : AttemptSpec R) : Option String :=
  match a.structured with
  | .success _ => none
  | .fail e => some e
  | .typeErr =>
    match a.fallback with
    | .ok _ => none
    | .error e2 => some e2

/-- Observable trace of `_call_deep_research`: its result (`error` models
the raised exception), the number of loop iterations run, and the sleeps
performed (in tenths of a second, in order). -/
structure CallTrace (R : Type) where
  result : Except String R
  attempts_used : Nat
  sleeps : List Nat
deriving Repr

/-- The retry loop body: `rem` iterations remain, `used` have run,
`lastErr` is the recorded exception; on exhaustion raise
`last_err or RuntimeError("Deep Research request failed")`. -/
def call_go {R : Type} (att : Nat → AttemptSpec R) :
    Nat → Nat → Option String → List Nat → CallTrace R
  | 0, used, lastErr, sleeps =>
    ⟨.error (lastErr.getD "Deep Research request failed"), used, sleeps.reverse⟩
  | rem + 1, used, lastErr, sleeps =>
    match (att used).structured with
    | .success r => ⟨.ok r, used + 1, sleeps.reverse⟩
    | .fail e => call_go att rem (used + 1) (some e) (sleep_tenths used :: sleeps)
    | .typeErr =>
      match (att used).fallback with
      | .ok r => ⟨.ok r, used + 1, sleeps.reverse⟩
      | .error e2 => call_go att rem (used + 1) (some e2) (sleep_tenths used :: sleeps)

/-- Model of `_call_deep_research` with `max_retries = 3`. -/
def call_deep_research {R : Type} (att : Nat → AttemptSpec R) : CallTrace R :=
  call_go att 3 0 none []

/-! ## Job orchestrator (`Parlay.parlay` command) -/

/-- How the worker task resolves: never before the 14-minute deadline
(`asyncio.TimeoutError`), or with `run_deep_research`'s result pair. -/
inductive WorkerOutcome where
  | timeout
  | resolved (result : Option ParlayResult) (err : Option String)

/-- The observable behaviour of one admitted job: the sequence of status
phases rendered into the status embed, the final `(result, error)` pair
rendered to the caller, and whether the worker task was cancelled. -/
structure RunOutput where
  statuses : List String
  delivered : Option ParlayResult × Option String
  worker_cancelled : Bool
deriving DecidableEq, Repr

/-- Outcome of the `/parlay` command. -/
inductive ParlayCmdOutcome where
  | rejected_access (msg : String)
  | rejected_quota (msg : String)
  | ran (out : RunOutput)
deriving DecidableEq, Repr

/-- The access-control rejection message. -/
def access_denied_message : String :=
  "⛔ You need **Administrator** or the **ParlayAI+** role to use this command."

/-- The daily-limit rejection message (with `DAILY_MAX_PARLAYS = 3`
interpolated). -/
def quota_exceeded_message : String :=
  "⏱️ Daily limit reached. You’ve already completed **3** parlays today (ET). Try again tomorrow."

/-- The distinct timeout error rendered into the result embed. -/
def timeout_error_message : String :=
  "Timed out waiting for research (took too long). Try narrowing the query or choosing fewer legs."

/-- Terminal phases of the status embed (`Complete` on success, `Failed`
otherwise; the code has no other terminal phase). -/
def terminal_status (s : String) : Bool := s == "Complete" || s == "Failed"

/-- Model of the `Parlay.parlay` slash command: access check, quota check,
pending-record reservation, initial and heartbeat status emissions
(`heartbeats` many `Running` ticks), then either the timeout branch
(cancel worker, finalize failed, emit a `Failed` terminal status, deliver
the timeout error) or the resolved branch (emit `Processing`, finalize
success/failed from the error component, emit the terminal status, deliver
the worker's pair). -/
def parlay_command (L : Ledger) (has_access : Bool) (userId : Nat) (today : String)
    (jobId : String) (heartbeats : Nat) (outcome : WorkerOutcome) :
    Ledger × ParlayCmdOutcome :=
  if !has_access then (L, .rejected_access access_denied_message)
  else if remaining_today userId today L ≤ 0 then (L, .rejected_quota quota_exceeded_message)
  else
    let L1 := create_pending_job jobId userId today L
    match outcome with
    | .timeout =>
      let L2 := set_job_status jobId .failed L1
      (L2, .ran ⟨["Waiting", "Waiting"] ++ List.replicate heartbeats "Running" ++ ["Failed"],
                 (none, some timeout_error_message), true⟩)
    | .resolved r e =>
      let L2 := set_job_status jobId (if e.isSome then .failed else .success) L1
      (L2, .ran ⟨["Waiting", "Waiting"] ++ List.replicate heartbeats "Running" ++
                   ["Processing", if e.isSome then "Failed" else "Complete"],
                 (r, e), false⟩)

/-! ## Helper lemmas -/

lemma string_append_ne_empty (a b : String) (h : a ≠ "") : a ++ b ≠ "" := by
  intro hab
  apply h
  have h2 := congrArg String.data hab
  rw [String.data_append] at h2
  have ha : a.data = [] := (List.append_eq_nil.mp h2).1
  exact String.ext ha

lemma set_job_status_of_fresh (j : String) (st : JStatus) (L : Ledger)
    (h : ∀ r ∈ L, r.job_id ≠ j) : set_job_status j st L = L := by
  induction L with
  | nil => rfl
  | cons a t ih =>
    have ha : a.job_id ≠ j := h a (List.mem_cons_self a t)
    have ht := ih (fun r hr => h r (List.mem_cons_of_mem a hr))
    simp only [set_job_status, List.map_cons] at ht ⊢
    rw [if_neg ha, ht]

lemma filter_fresh (j : String) (L : Ledger) (h : ∀ r ∈ L, r.job_id ≠ j) :
    L.filter (fun r => r.job_id ≠ j) = L :=
  List.filter_eq_self.mpr (fun a ha => by simpa using h a ha)

lemma create_pending_job_fresh (j : String) (u : Nat) (d : String) (L : Ledger)
    (h : ∀ r ∈ L, r.job_id ≠ j) :
    create_pending_job j u d L = ⟨j, u, d, .pending⟩ :: L := by
  unfold create_pending_job
  rw [filter_fresh j L h]

lemma count_success_cons_ne (u : Nat) (d : String) (r : JobRecord) (L : Ledger)
    (h : r.status ≠ JStatus.success) :
    count_success_today u d (r :: L) = count_success_today u d L := by
  unfold count_success_today
  rw [List.filter_cons]
  have hb : (r.user_id == u && r.et_date == d && r.status == JStatus.success) = false := by
    have hs : (r.status == JStatus.success) = false := beq_eq_false_iff_ne.mpr h
    simp [hs]
  rw [hb]
  simp

lemma reserve_finalize_failed_eq (j : String) (u : Nat) (d : String) (L : Ledger)
    (h : ∀ r ∈ L, r.job_id ≠ j) :
    set_job_status j .failed (create_pending_job j u d L) = ⟨j, u, d, .failed⟩ :: L := by
  rw [create_pending_job_fresh j u d L h]
  have ht := set_job_status_of_fresh j .failed L h
  simp only [set_job_status, List.map_cons] at ht ⊢
  rw [ht]
  simp

lemma remaining_after_reserve_failed (j : String) (u u2 : Nat) (d d2 : String) (L : Ledger)
    (h : ∀ r ∈ L, r.job_id ≠ j) :
    remaining_today u2 d2 (set_job_status j .failed (create_pending_job j u d L))
      = remaining_today u2 d2 L := by
  rw [reserve_finalize_failed_eq j u d L h]
  unfold remaining_today
  rw [count_success_cons_ne u2 d2 _ L (by simp)]

/-! ## Claim C1 -/

/-- C1: for every user and reference day, `remaining_today` equals
`max(0, DAILY_MAX − success count)`; records with a non-success status never
affect the value, and a reserve (fresh pending record) followed by a failed
finalize leaves `remaining_today` unchanged for every user and day. -/
theorem C1_quota_counts_only_successes (L : Ledger) (u u2 : Nat) (d d2 : String)
    (r : JobRecord) (j : String)
    (hr : r.status ≠ JStatus.success) (hfresh : ∀ q ∈ L, q.job_id ≠ j) :
    remaining_today u d L = max 0 (DAILY_MAX_PARLAYS - count_success_today u d L)
    ∧ remaining_today u d (r :: L) = remaining_today u d L
    ∧ remaining_today u2 d2 (set_job_status j JStatus.failed (create_pending_job j u d L))
        = remaining_today u2 d2 L :=
  ⟨rfl,
   by unfold remaining_today; rw [count_success_cons_ne u d r L hr],
   remaining_after_reserve_failed j u u2 d d2 L hfresh⟩

/-- Witness for C1 at a concrete ledger: one success for user 1, a pending
record to add, and a fresh job id "C". -/
theorem C1_witness :
    ((⟨"B", 1, "2026-02-03", JStatus.pending⟩ : JobRecord).status ≠ JStatus.success)
    ∧ (∀ q ∈ ([⟨"A", 1, "2026-02-03", JStatus.success⟩] : Ledger), q.job_id ≠ "C")
    ∧ (remaining_today 1 "2026-02-03" [⟨"A", 1, "2026-02-03", JStatus.success⟩]
        = max 0 (DAILY_MAX_PARLAYS
            - count_success_today 1 "2026-02-03" [⟨"A", 1, "2026-02-03", JStatus.success⟩])
      ∧ remaining_today 1 "2026-02-03"
          (⟨"B", 1, "2026-02-03", JStatus.pending⟩ :: [⟨"A", 1, "2026-02-03", JStatus.success⟩])
        = remaining_today 1 "2026-02-03" [⟨"A", 1, "2026-02-03", JStatus.success⟩]
      ∧ remaining_today 2 "2026-02-04"
          (set_job_status "C" JStatus.failed
            (create_pending_job "C" 1 "2026-02-03" [⟨"A", 1, "2026-02-03", JStatus.success⟩]))
        = remaining_today 2 "2026-02-04" [⟨"A", 1, "2026-02-03", JStatus.success⟩]) :=
  ⟨by decide, by decide,
   C1_quota_counts_only_successes [⟨"A", 1, "2026-02-03", JStatus.success⟩] 1 2
     "2026-02-03" "2026-02-04" ⟨"B", 1, "2026-02-03", JStatus.pending⟩ "C"
     (by decide) (by decide)⟩

/-! ## Claim C5 -/

/-- C5 counterexample: a finalize that conflicts with an already-terminal
status is not detected — `set_job_status` silently overwrites a Success
record with Failed (the claimed monotone transition discipline and
`LedgerInconsistency` reporting do not exist in the code). -/
theorem C5_counterexample :
    set_job_status "J" JStatus.failed [⟨"J", 7, "2026-02-03", JStatus.success⟩]
      = [⟨"J", 7, "2026-02-03", JStatus.failed⟩] := rfl

/-- C5 amended: `set_job_status` updates the matching record's status
unconditionally; it is idempotent when repeated with the same outcome, a
conflicting finalize silently overwrites the previous terminal status (no
inconsistency is detected or reported — the operation has no error outcome),
and records with a different job_id are left unchanged. -/
theorem C5_amended (L : Ledger) (j : String) (st : JStatus) :
    set_job_status j st (set_job_status j st L) = set_job_status j st L
    ∧ (∀ r ∈ set_job_status j st L, r.job_id = j → r.status = st)
    ∧ (∀ r ∈ set_job_status j st L, r.job_id ≠ j → r ∈ L) := by
  refine ⟨?_, ?_, ?_⟩
  · induction L with
    | nil => rfl
    | cons a t ih =>
      simp only [set_job_status, List.map_cons] at ih ⊢
      rw [ih]
      by_cases ha : a.job_id = j
      · rw [if_pos ha, if_pos ha]
      · rw [if_neg ha, if_neg ha]
  · intro r hr hrj
    obtain ⟨a, ha, hfa⟩ := List.mem_map.mp hr
    by_cases haj : a.job_id = j
    · rw [if_pos haj] at hfa
      rw [← hfa]
    · rw [if_neg haj] at hfa
      rw [← hfa] at hrj
      exact absurd hrj haj
  · intro r hr hrj
    obtain ⟨a, ha, hfa⟩ := List.mem_map.mp hr
    by_cases haj : a.job_id = j
    · rw [if_pos haj] at hfa
      rw [← hfa] at hrj
      exact absurd haj hrj
    · rw [if_neg haj] at hfa
      rw [← hfa]
      exact ha

/-- Witness for C5 amended at a concrete ledger with one success record. -/
theorem C5_amended_witness :
    (set_job_status "J" JStatus.failed
        (set_job_status "J" JStatus.failed [⟨"J", 7, "2026-02-03", JStatus.success⟩])
      = set_job_status "J" JStatus.failed [⟨"J", 7, "2026-02-03", JStatus.success⟩])
    ∧ ((⟨"J", 7, "2026-02-03", JStatus.failed⟩ : JobRecord)
          ∈ set_job_status "J" JStatus.failed [⟨"J", 7, "2026-02-03", JStatus.success⟩])
    ∧ (⟨"J", 7, "2026-02-03", JStatus.failed⟩ : JobRecord).status = JStatus.failed :=
  ⟨(C5_amended [⟨"J", 7, "2026-02-03", JStatus.success⟩] "J" JStatus.failed).1,
   by decide,
   (C5_amended [⟨"J", 7, "2026-02-03", JStatus.success⟩] "J" JStatus.failed).2.1
     ⟨"J", 7, "2026-02-03", JStatus.failed⟩ (by decide) rfl⟩

/-! ## Claim C7 -/

/-- C7: when the user's remaining quota is 0 at request time, the command
rejects with the quota-exceeded message before any job record is created:
the ledger is returned unchanged and no run state is entered. -/
theorem C7_quota_rejection (L : Ledger) (u : Nat) (today jobId : String)
    (n : Nat) (outcome : WorkerOutcome)
    (hq : remaining_today u today L = 0) :
    parlay_command L true u today jobId n outcome
      = (L, .rejected_quota quota_exceeded_message) := by
  unfold parlay_command
  rw [hq]
  simp

/-- Witness for C7 at the spec scenario: `DAILY_MAX = 3`, three prior
successes for the user in the reference day, a fourth attempt. -/
theorem C7_witness :
    remaining_today 1 "2026-02-03"
      [⟨"A", 1, "2026-02-03", JStatus.success⟩, ⟨"B", 1, "2026-02-03", JStatus.success⟩,
       ⟨"C", 1, "2026-02-03", JStatus.success⟩] = 0
    ∧ parlay_command
        [⟨"A", 1, "2026-02-03", JStatus.success⟩, ⟨"B", 1, "2026-02-03", JStatus.success⟩,
         ⟨"C", 1, "2026-02-03", JStatus.success⟩] true 1 "2026-02-03" "D" 0
        (.resolved none none)
      = ([⟨"A", 1, "2026-02-03", JStatus.success⟩, ⟨"B", 1, "2026-02-03", JStatus.success⟩,
          ⟨"C", 1, "2026-02-03", JStatus.success⟩], .rejected_quota quota_exceeded_message) :=
  ⟨by decide,
   C7_quota_rejection
     [⟨"A", 1, "2026-02-03", JStatus.success⟩, ⟨"B", 1, "2026-02-03", JStatus.success⟩,
      ⟨"C", 1, "2026-02-03", JStatus.success⟩] 1 "2026-02-03" "D" 0
     (.resolved none none) (by decide)⟩

/-! ## Claim C2 -/

/-- C2 counterexample: in the timeout branch the single terminal status
emitted has phase "Failed" — the claimed "TimedOut" phase never appears
(the code has no such phase; the distinct timeout error text is delivered
through the result embed instead). -/
theorem C2_counterexample :
    (parlay_command [] true 1 "2026-02-03" "JOB1" 2 .timeout).2 =
      .ran ⟨["Waiting", "Waiting", "Running", "Running", "Failed"],
            (none, some timeout_error_message), true⟩
    ∧ "TimedOut" ∉ ["Waiting", "Waiting", "Running", "Running", "Failed"] := by
  constructor
  · rfl
  · decide

/-- C2 amended: if the worker does not resolve before the deadline, the
orchestrator cancels the worker, finalizes the ledger record as Failed (so
`remaining_today` is unchanged for the fresh job), emits exactly one
terminal status whose phase is "Failed" (not "TimedOut", which does not
exist), and returns the distinct timeout error message, which differs from
every worker-failure error. -/
theorem C2_amended (L : Ledger) (u : Nat) (today jobId : String) (n : Nat)
    (hq : 0 < remaining_today u today L) (hfresh : ∀ r ∈ L, r.job_id ≠ jobId) :
    (parlay_command L true u today jobId n .timeout).1 = ⟨jobId, u, today, .failed⟩ :: L
    ∧ (parlay_command L true u today jobId n .timeout).2 =
        .ran ⟨["Waiting", "Waiting"] ++ List.replicate n "Running" ++ ["Failed"],
              (none, some timeout_error_message), true⟩
    ∧ remaining_today u today (parlay_command L true u today jobId n .timeout).1
        = remaining_today u today L
    ∧ (["Waiting", "Waiting"] ++ List.replicate n "Running" ++ ["Failed"]).countP
        terminal_status = 1
    ∧ "TimedOut" ∉ ["Waiting", "Waiting"] ++ List.replicate n "Running" ++ ["Failed"]
    ∧ (∀ e, timeout_error_message ≠ "Deep Research request failed: " ++ e) := by
  have hL : set_job_status jobId JStatus.failed (create_pending_job jobId u today L)
      = ⟨jobId, u, today, .failed⟩ :: L := reserve_finalize_failed_eq jobId u today L hfresh
  have hpc : parlay_command L true u today jobId n .timeout =
      (⟨jobId, u, today, .failed⟩ :: L,
       .ran ⟨["Waiting", "Waiting"] ++ List.replicate n "Running" ++ ["Failed"],
             (none, some timeout_error_message), true⟩) := by
    unfold parlay_command
    rw [if_neg (by simp), if_neg (not_le.mpr hq)]
    show (set_job_status jobId JStatus.failed (create_pending_job jobId u today L),
      ParlayCmdOutcome.ran ⟨["Waiting", "Waiting"] ++ List.replicate n "Running" ++ ["Failed"],
        (none, some timeout_error_message), true⟩) = _
    rw [hL]
  refine ⟨?_, ?_, ?_, ?_, ?_, ?_⟩
  · rw [hpc]
  · rw [hpc]
  · rw [hpc]
    show remaining_today u today (⟨jobId, u, today, .failed⟩ :: L) = remaining_today u today L
    unfold remaining_today
    rw [count_success_cons_ne u today _ L (by simp)]
  · rw [List.countP_append, List.countP_append]
    have h2 : List.countP terminal_status (List.replicate n "Running") = 0 :=
      List.countP_eq_zero.mpr (fun a ha => by rw [List.eq_of_mem_replicate ha]; decide)
    rw [h2]
    decide
  · intro hmem
    rcases List.mem_append.mp hmem with h1 | h2
    · rcases List.mem_append.mp h1 with h3 | h4
      · revert h3
        decide
      · exact absurd (List.eq_of_mem_replicate h4) (by decide)
    · revert h2
      decide
  · intro e he
    have h2 := congrArg (fun s : String => s.data.head?) he
    simp only [String.data_append] at h2
    rw [List.head?_append] at h2
    have h3 : (("Deep Research request failed: " : String).data.head?).or e.data.head?
        = some 'D' := rfl
    rw [h3] at h2
    have h4 : timeout_error_message.data.head? = some 'T' := rfl
    rw [h4] at h2
    exact absurd h2 (by decide)

/-- Witness for C2 amended: empty ledger, user 1, no heartbeats. -/
theorem C2_amended_witness :
    (0 : Int) < remaining_today 1 "2026-02-03" []
    ∧ (∀ r ∈ ([] : Ledger), r.job_id ≠ "J1")
    ∧ (parlay_command [] true 1 "2026-02-03" "J1" 0 .timeout).1
        = ⟨"J1", 1, "2026-02-03", .failed⟩ :: [] :=
  ⟨by decide, by decide,
   (C2_amended [] 1 "2026-02-03" "J1" 0 (by decide) (by decide)).1⟩

/-! ## Claim C10 -/

/-- C10 counterexample: the empty string is not returned unchanged (Python
falsiness maps it to today's date), and the aliases are matched
case-insensitively, so "TMR" is not returned unchanged either. -/
theorem C10_counterexample :
    normalize_date "2026-02-03" "2026-02-04" (some "") = "2026-02-03"
    ∧ normalize_date "2026-02-03" "2026-02-04" (some "TMR") = "2026-02-04"
    ∧ ("2026-02-03" : String) ≠ ""
    ∧ ("2026-02-04" : String) ≠ "TMR" :=
  ⟨rfl, rfl, by decide, by decide⟩

/-- C10 amended: `normalize_date` maps `None`, the empty string, and any
casing of "today" to today's ET date; any string whose lowercasing is one
of the four tomorrow aliases to tomorrow's date; and every other non-empty
string is passed through unchanged with no format validation. -/
theorem C10_amended (todayS tomorrowS s : String) :
    normalize_date todayS tomorrowS none = todayS
    ∧ (s = "" ∨ py_lower s = "today" → normalize_date todayS tomorrowS (some s) = todayS)
    ∧ (py_lower s = "tomorrow" ∨ py_lower s = "tmr" ∨ py_lower s = "tommorow" ∨
        py_lower s = "tomorow" → normalize_date todayS tomorrowS (some s) = tomorrowS)
    ∧ (s ≠ "" → py_lower s ≠ "today" →
        ¬(py_lower s = "tomorrow" ∨ py_lower s = "tmr" ∨ py_lower s = "tommorow" ∨
          py_lower s = "tomorow")
        → normalize_date todayS tomorrowS (some s) = s) := by
  refine ⟨rfl, ?_, ?_, ?_⟩
  · intro h
    simp only [normalize_date]
    rcases h with h | h
    · rw [if_pos h]
    · by_cases hs : s = ""
      · rw [if_pos hs]
      · rw [if_neg hs, if_pos h]
  · intro h
    simp only [normalize_date]
    have hs : s ≠ "" := by
      intro hs
      subst hs
      revert h
      decide
    have ht : py_lower s ≠ "today" := by
      intro ht
      rcases h with h | h | h | h <;> rw [ht] at h <;> revert h <;> decide
    rw [if_neg hs, if_neg ht, if_pos h]
  · intro h1 h2 h3
    simp only [normalize_date]
    rw [if_neg h1, if_neg h2, if_neg h3]

/-- Witness for C10 amended: an arbitrary date-shaped string passes
through unchanged. -/
theorem C10_amended_witness :
    ("2025-01-01" : String) ≠ ""
    ∧ py_lower "2025-01-01" ≠ "today"
    ∧ ¬(py_lower "2025-01-01" = "tomorrow" ∨ py_lower "2025-01-01" = "tmr" ∨
        py_lower "2025-01-01" = "tommorow" ∨ py_lower "2025-01-01" = "tomorow")
    ∧ normalize_date "2026-02-03" "2026-02-04" (some "2025-01-01") = "2025-01-01" :=
  ⟨by decide, by decide, by decide,
   (C10_amended "2026-02-03" "2026-02-04" "2025-01-01").2.2.2 (by decide) (by decide) (by decide)⟩

/-! ## Claim C8 -/

lemma call_go_attempts_le {R : Type} (att : Nat → AttemptSpec R) :
    ∀ (rem used : Nat) (le : Option String) (sl : List Nat),
      (call_go att rem used le sl).attempts_used ≤ used + rem := by
  intro rem
  induction rem with
  | zero =>
    intro used le sl
    simp [call_go]
  | succ k ih =>
    intro used le sl
    unfold call_go
    cases hs : (att used).structured with
    | success r => simp
    | fail e =>
      have h2 := ih (used + 1) (some e) (sleep_tenths used :: sl)
      simpa using Nat.le_trans h2 (by omega)
    | typeErr =>
      cases hf : (att used).fallback with
      | ok r => simp
      | error e2 =>
        have h2 := ih (used + 1) (some e2) (sleep_tenths used :: sl)
        simpa using Nat.le_trans h2 (by omega)

lemma call_go_step {R : Type} (att : Nat → AttemptSpec R) (k used : Nat)
    (le : Option String) (sl : List Nat) (e : String)
    (h : attempt_error (att used) = some e) :
    call_go att (k + 1) used le sl
      = call_go att k (used + 1) (some e) (sleep_tenths used :: sl) := by
  unfold attempt_error at h
  cases hs : (att used).structured with
  | success r =>
    rw [hs] at h
    simp at h
  | fail e0 =>
    rw [hs] at h
    injection h with h3
    subst h3
    conv_lhs => unfold call_go
    rw [hs]
  | typeErr =>
    rw [hs] at h
    cases hf : (att used).fallback with
    | ok r =>
      rw [hf] at h
      simp at h
    | error e2 =>
      rw [hf] at h
      injection h with h3
      subst h3
      conv_lhs => unfold call_go
      rw [hs, hf]

/-- C8: the retry loop runs at most 3 iterations; when every iteration
fails it raises the last recorded error, having slept
`(2 ** attempt) + (0.1 * attempt)` seconds (in tenths: 10, 21, 42) between
iterations, a base part that doubles per attempt plus a per-attempt additive
term; and `run_deep_research` surfaces the single combined message
"Deep Research request failed: " wrapping that last error. -/
theorem C8_worker_retries {R : Type} (att : Nat → AttemptSpec R) (e : String)
    (h0 : (attempt_error (att 0)).isSome = true)
    (h1 : (attempt_error (att 1)).isSome = true)
    (h2 : attempt_error (att 2) = some e) :
    (∀ att2 : Nat → AttemptSpec R, (call_deep_research att2).attempts_used ≤ 3)
    ∧ (call_deep_research att).result = .error e
    ∧ (call_deep_research att).attempts_used = 3
    ∧ (call_deep_research att).sleeps = [sleep_tenths 0, sleep_tenths 1, sleep_tenths 2]
    ∧ (call_deep_research att).sleeps = [10, 21, 42]
    ∧ (∀ a, sleep_tenths a = base_tenths a + jitter_tenths a)
    ∧ (∀ a, base_tenths (a + 1) = 2 * base_tenths a)
    ∧ (∀ q er, String.mk (py_strip q.toList) ≠ "" →
        run_deep_research q (.failed er)
          = (none, some ("Deep Research request failed: " ++ er))) := by
  obtain ⟨e0, he0⟩ := Option.isSome_iff_exists.mp h0
  obtain ⟨e1, he1⟩ := Option.isSome_iff_exists.mp h1
  have hrun : call_deep_research att
      = ⟨.error e, 3, [sleep_tenths 0, sleep_tenths 1, sleep_tenths 2]⟩ := by
    unfold call_deep_research
    rw [call_go_step att 2 0 none [] e0 he0]
    rw [call_go_step att 1 1 (some e0) _ e1 he1]
    rw [call_go_step att 0 2 (some e1) _ e h2]
    rfl
  refine ⟨?_, ?_, ?_, ?_, ?_, ?_, ?_, ?_⟩
  · intro att2
    exact Nat.le_trans (call_go_attempts_le att2 3 0 none []) (by omega)
  · rw [hrun]
  · rw [hrun]
  · rw [hrun]
  · rw [hrun]
    rfl
  · intro a
    rfl
  · intro a
    unfold base_tenths
    rw [pow_succ]
    ring
  · intro q er hq
    unfold run_deep_research
    rw [if_neg hq]

/-- Witness for C8 at a concrete always-failing attempt behaviour. -/
theorem C8_witness :
    (attempt_error (⟨.fail "boom", .error "x"⟩ : AttemptSpec Nat)).isSome = true
    ∧ attempt_error (⟨.fail "boom", .error "x"⟩ : AttemptSpec Nat) = some "boom"
    ∧ (call_deep_research
        (fun _ => (⟨.fail "boom", .error "x"⟩ : AttemptSpec Nat))).result = .error "boom"
    ∧ (call_deep_research
        (fun _ => (⟨.fail "boom", .error "x"⟩ : AttemptSpec Nat))).sleeps = [10, 21, 42] :=
  ⟨rfl, rfl,
   (C8_worker_retries (fun _ => ⟨.fail "boom", .error "x"⟩) "boom" rfl rfl rfl).2.1,
   (C8_worker_retries (fun _ => ⟨.fail "boom", .error "x"⟩) "boom" rfl rfl rfl).2.2.2.2.1⟩

/-! ## Claim C3 -/

/-- A valid leg used in the C3 scenario. -/
def c3_leg_ok1 : Json :=
  .obj [("market", .str "moneyline"), ("selection", .str "BOS ML"), ("confidence", .str "high")]

/-- The invalid-confidence leg used in the C3 scenario. -/
def c3_leg_bad : Json :=
  .obj [("market", .str "spread"), ("selection", .str "NYK -2.5"), ("confidence", .str "certain")]

/-- A second valid leg used in the C3 scenario. -/
def c3_leg_ok2 : Json :=
  .obj [("market", .str "total"), ("selection", .str "O 212.5"), ("confidence", .str "low")]

/-- Candidate JSON with one invalid-confidence leg among three. -/
def c3_data : Json :=
  .obj [("parlay", .arr [c3_leg_ok1, c3_leg_bad, c3_leg_ok2]),
        ("rationales", .arr [.str "r1"]), ("risks", .str "k"), ("sources", .arr [.str "u"])]

/-- C3 counterexample: on a response with an invalid confidence on one leg
among three otherwise valid legs, strict validation fails and the salvage
does NOT return the two valid legs — the single list comprehension raises on
the bad leg, so the whole salvage fails with an error instead of returning a
ResearchResult. -/
theorem C3_counterexample :
    is_ok (model_validate_result c3_data) = false
    ∧ salvage c3_data = .error "confidence must be one of: low|medium|high"
    ∧ is_ok (leg_from_json c3_leg_ok1) = true
    ∧ is_ok (leg_from_json c3_leg_bad) = false
    ∧ is_ok (leg_from_json c3_leg_ok2) = true :=
  ⟨rfl, rfl, rfl, rfl, rfl⟩

lemma salvage_base_arr (legsJ : List Json) :
    (if py_truthy (Json.arr legsJ) then
       match py_iter (Json.arr legsJ) with
       | some xs => Except.ok xs
       | none => Except.error "TypeError: object is not iterable"
     else Except.ok ([] : List Json)) = Except.ok legsJ := by
  cases legsJ with
  | nil => rfl
  | cons a t => rfl

lemma coerce_str_list_arr (rs : List Json) :
    coerce_str_list (.arr rs) = .ok (rs.map py_str) := by
  cases rs with
  | nil => rfl
  | cons a t => rfl

lemma map_except_is_ok_iff {α β : Type} (f : α → Except String β) (l : List α) :
    is_ok (map_except f l) = true ↔ ∀ x ∈ l, is_ok (f x) = true := by
  induction l with
  | nil => simp [map_except, is_ok]
  | cons a t ih =>
    cases hf : f a with
    | error e =>
      simp only [map_except, hf]
      constructor
      · intro h
        exact absurd h (by simp [is_ok])
      · intro h
        have h2 := h a (by simp)
        rw [hf] at h2
        simp [is_ok] at h2
    | ok y =>
      cases hm : map_except f t with
      | error e =>
        simp only [map_except, hf, hm]
        constructor
        · intro h
          exact absurd h (by simp [is_ok])
        · intro h
          have h2 : is_ok (map_except f t) = true :=
            ih.mpr (fun x hx => h x (by simp [hx]))
          rw [hm] at h2
          simp [is_ok] at h2
      | ok ys =>
        simp only [map_except, hf, hm]
        constructor
        · intro _ x hx
          rcases List.mem_cons.mp hx with rfl | hx2
          · rw [hf]
            rfl
          · exact ih.mp (by rw [hm]; rfl) x hx2
        · intro _
          rfl

/-- C3 amended: when the candidate JSON is an object with list-shaped
`parlay`, `rationales` and `sources` fields, the salvage drops non-dict
legs and coerces rationales, risks and sources to text, but it rebuilds the
legs with a single all-or-nothing traversal: it succeeds — returning
exactly the legs it validated — if and only if every dict leg individually
validates; one invalid leg makes the whole salvage raise, and an error is
surfaced instead of a partial ResearchResult. -/
theorem C3_amended (kvs : List (String × Json)) (legsJ rs ss : List Json) (riskJ : Json)
    (hp : obj_get_last kvs "parlay" = some (.arr legsJ))
    (hr : obj_get_last kvs "rationales" = some (.arr rs))
    (hk : obj_get_last kvs "risks" = some riskJ)
    (hs : obj_get_last kvs "sources" = some (.arr ss)) :
    (salvage (.obj kvs) =
      match map_except leg_from_json (legsJ.filter Json.isObj) with
      | .error e => .error e
      | .ok legs => .ok ⟨legs, rs.map py_str,
          (if py_truthy riskJ then py_str riskJ else ""), ss.map py_str⟩)
    ∧ (is_ok (salvage (.obj kvs)) = true ↔
        ∀ l ∈ legsJ.filter Json.isObj, is_ok (leg_from_json l) = true) := by
  have hsal : salvage (.obj kvs) =
      match map_except leg_from_json (legsJ.filter Json.isObj) with
      | .error e => .error e
      | .ok legs => .ok ⟨legs, rs.map py_str,
          (if py_truthy riskJ then py_str riskJ else ""), ss.map py_str⟩ := by
    unfold salvage
    simp only [hp, hr, hk, hs, Option.getD_some, salvage_base_arr, coerce_str_list_arr]
  refine ⟨hsal, ?_⟩
  rw [hsal]
  cases hm : map_except leg_from_json (legsJ.filter Json.isObj) with
  | error e =>
    constructor
    · intro h
      exact absurd h (by simp [is_ok])
    · intro h
      have h2 := (map_except_is_ok_iff leg_from_json (legsJ.filter Json.isObj)).mpr h
      rw [hm] at h2
      simp [is_ok] at h2
  | ok legs =>
    constructor
    · intro _
      exact (map_except_is_ok_iff leg_from_json (legsJ.filter Json.isObj)).mp (by rw [hm]; rfl)
    · intro _
      rfl

/-- Witness for C3 amended at a concrete all-valid candidate. -/
theorem C3_amended_witness :
    obj_get_last [("parlay", Json.arr [c3_leg_ok1]), ("rationales", Json.arr [Json.str "r1"]),
        ("risks", Json.str "k"), ("sources", Json.arr [Json.str "u"])] "parlay"
      = some (.arr [c3_leg_ok1])
    ∧ obj_get_last [("parlay", Json.arr [c3_leg_ok1]), ("rationales", Json.arr [Json.str "r1"]),
        ("risks", Json.str "k"), ("sources", Json.arr [Json.str "u"])] "rationales"
      = some (.arr [Json.str "r1"])
    ∧ obj_get_last [("parlay", Json.arr [c3_leg_ok1]), ("rationales", Json.arr [Json.str "r1"]),
        ("risks", Json.str "k"), ("sources", Json.arr [Json.str "u"])] "risks"
      = some (Json.str "k")
    ∧ obj_get_last [("parlay", Json.arr [c3_leg_ok1]), ("rationales", Json.arr [Json.str "r1"]),
        ("risks", Json.str "k"), ("sources", Json.arr [Json.str "u"])] "sources"
      = some (.arr [Json.str "u"])
    ∧ (salvage (.obj [("parlay", Json.arr [c3_leg_ok1]), ("rationales", Json.arr [Json.str "r1"]),
        ("risks", Json.str "k"), ("sources", Json.arr [Json.str "u"])]) =
      match map_except leg_from_json (([c3_leg_ok1] : List Json).filter Json.isObj) with
      | .error e => .error e
      | .ok legs => .ok ⟨legs, ([Json.str "r1"] : List Json).map py_str,
          (if py_truthy (Json.str "k") then py_str (Json.str "k") else ""),
          ([Json.str "u"] : List Json).map py_str⟩) :=
  ⟨rfl, rfl, rfl, rfl,
   (C3_amended [("parlay", Json.arr [c3_leg_ok1]), ("rationales", Json.arr [Json.str "r1"]),
      ("risks", Json.str "k"), ("sources", Json.arr [Json.str "u"])]
      [c3_leg_ok1] [Json.str "r1"] [Json.str "u"] (Json.str "k") rfl rfl rfl rfl).1⟩

/-! ## Claim C4 -/

/-- The array-only worker response from the C4 scenario. -/
def c4_text : String :=
  "[\x7b\"market\":\"moneyline\",\"selection\":\"A -3\",\"confidence\":\"HIGH\"\x7d]"

/-- C4: on array-only JSON whose array contains an object, the span
isolation picks the inner `{...}` object before the top-level-array wrap
can apply, so extraction returns the leg object itself as the top level;
after defaulting, validation ignores the extra keys and the final result
has 0 legs (not the claimed 1 leg with confidence "high"). -/
theorem C4_array_only_extraction :
    extract_json_from_text c4_text =
      some (.obj [("market", .str "moneyline"), ("selection", .str "A -3"),
                  ("confidence", .str "HIGH")])
    ∧ run_deep_research "nba props" (.ok (some c4_text)) = (some ⟨[], [], "", []⟩, none) :=
  ⟨rfl, rfl⟩

/-! ## Claim C6 -/

/-- The Extract-then-Validate pipeline of `run_deep_research` (extraction,
the setdefault normalization, then `model_validate`). -/
def extract_then_validate (text : String) : Option (Except String ParlayResult) :=
  (extract_json_from_text text).map (fun d => model_validate_result (set_defaults d))

/-- The canonical JSON object form of a validated `ParlayLeg` (the shape
the schema's serialization produces). -/
def leg_to_json (leg : ParlayLeg) : Json :=
  .obj [("market", .str leg.market), ("selection", .str leg.selection),
        ("book_examples", .arr (leg.book_examples.map .str)),
        ("confidence", .str leg.confidence)]

/-- The canonical JSON object form of a `ParlayResult`. -/
def result_to_json (r : ParlayResult) : Json :=
  .obj [("parlay", .arr (r.parlay.map leg_to_json)),
        ("rationales", .arr (r.rationales.map .str)),
        ("risks", .str r.risks),
        ("sources", .arr (r.sources.map .str))]

/-- A schema-valid JSON text whose `risks` string contains a comma directly
before a closing bracket. -/
def c6_text : String :=
  "\x7b\"parlay\": [], \"rationales\": [], \"risks\": \"a,]\", \"sources\": []\x7d"

/-- C6 counterexample: the text parses (as plain JSON) to a schema-valid
object with `risks = "a,]"`, but Extract-then-Validate returns
`risks = "a]"` — the trailing-comma repair rewrote a comma inside a string
value, so the round trip is not the identity for all schema-valid inputs. -/
theorem C6_counterexample :
    json_parse_chars c6_text.toList =
      some (.obj [("parlay", .arr []), ("rationales", .arr []),
                  ("risks", .str "a,]"), ("sources", .arr [])])
    ∧ extract_then_validate c6_text = some (.ok ⟨[], [], "a]", []⟩)
    ∧ ("a]" : String) ≠ "a,]" :=
  ⟨rfl, rfl, by decide⟩

lemma py_strip_eq_self (l : List Char) (h1 : l.head? = some lb) (h2 : l.getLast? = some rb) :
    py_strip l = l := by
  cases l with
  | nil => cases h1
  | cons c t =>
    injection h1 with h1
    subst h1
    unfold py_strip py_lstrip py_rstrip
    rw [List.dropWhile_cons, if_neg (by decide)]
    cases hrev : (lb :: t).reverse with
    | nil => exact absurd (congrArg List.length hrev) (by simp)
    | cons d t2 =>
      have hd : d = rb := by
        have h3 : (lb :: t).getLast? = (lb :: t).reverse.head? :=
          List.getLast?_eq_head?_reverse
        rw [hrev] at h3
        rw [h3] at h2
        injection h2 with h2
      subst hd
      rw [List.dropWhile_cons, if_neg (by decide), ← hrev, List.reverse_reverse]

lemma strip_fences_of_no_marker (l : List Char) (h : after_marker fence_pat l = none) :
    strip_fences l = l := by
  unfold strip_fences
  rw [h]

lemma py_find_head (c : Char) (t : List Char) : py_find c (c :: t) = some 0 := by
  unfold py_find
  rw [if_pos rfl]

lemma py_rfind_getLast (l : List Char) (c : Char) (h : l.getLast? = some c) :
    py_rfind c l = some (l.length - 1) := by
  unfold py_rfind
  cases hrev : l.reverse with
  | nil =>
    rw [List.getLast?_eq_head?_reverse, hrev] at h
    cases h
  | cons d t2 =>
    have hd : d = c := by
      rw [List.getLast?_eq_head?_reverse, hrev] at h
      injection h with h
    subst hd
    rw [py_find_head]
    simp

lemma isolate_span_eq_self (l : List Char) (h1 : l.head? = some lb)
    (h2 : l.getLast? = some rb) : isolate_span l = l := by
  cases l with
  | nil => cases h1
  | cons c t =>
    injection h1 with h1
    subst h1
    cases t with
    | nil =>
      rw [show ([lb] : List Char).getLast? = some lb from rfl] at h2
      injection h2 with h2
      exact absurd h2 (by decide)
    | cons d t2 =>
      simp only [isolate_span, py_find_head, py_rfind_getLast _ _ h2]
      rw [if_pos (by simp)]
      rw [List.drop_zero]
      have hlen : (lb :: d :: t2).length - 1 + 1 - 0 = (lb :: d :: t2).length := by
        simp
      rw [hlen, List.take_length]

lemma quote_convert_noop (t : List Char)
    (h : (t.take 80).contains qc = true ∨ t.contains sq = false) :
    quote_convert t = t := by
  unfold quote_convert
  rcases h with h | h
  · rw [h]
    simp
  · rw [h]
    simp

lemma map_except_str (xs : List String) :
    map_except as_str (xs.map Json.str) = .ok xs := by
  induction xs with
  | nil => rfl
  | cons a t ih =>
    simp only [List.map_cons, map_except, as_str]
    rw [ih]

lemma as_str_list_map_str (xs : List String) :
    as_str_list (.arr (xs.map Json.str)) = .ok xs := by
  unfold as_str_list
  exact map_except_str xs

lemma leg_from_json_round (leg : ParlayLeg)
    (h : leg.confidence = "low" ∨ leg.confidence = "medium" ∨ leg.confidence = "high") :
    leg_from_json (leg_to_json leg) = .ok leg := by
  have hb := as_str_list_map_str leg.book_examples
  have hc : conf_ok leg.confidence = .ok leg.confidence := by
    rcases h with h | h | h <;> rw [h] <;> rfl
  have h1 : obj_get_last [("market", Json.str leg.market), ("selection", Json.str leg.selection),
      ("book_examples", Json.arr (leg.book_examples.map Json.str)),
      ("confidence", Json.str leg.confidence)] "market" = some (Json.str leg.market) := rfl
  have h2 : obj_get_last [("market", Json.str leg.market), ("selection", Json.str leg.selection),
      ("book_examples", Json.arr (leg.book_examples.map Json.str)),
      ("confidence", Json.str leg.confidence)] "selection" = some (Json.str leg.selection) := rfl
  have h3 : obj_get_last [("market", Json.str leg.market), ("selection", Json.str leg.selection),
      ("book_examples", Json.arr (leg.book_examples.map Json.str)),
      ("confidence", Json.str leg.confidence)] "book_examples"
      = some (Json.arr (leg.book_examples.map Json.str)) := rfl
  have h4 : obj_get_last [("market", Json.str leg.market), ("selection", Json.str leg.selection),
      ("book_examples", Json.arr (leg.book_examples.map Json.str)),
      ("confidence", Json.str leg.confidence)] "confidence"
      = some (Json.str leg.confidence) := rfl
  unfold leg_to_json leg_from_json
  simp only [h1, h2, h3, h4, as_str, hb, hc]

lemma map_except_legs_round (legs : List ParlayLeg)
    (h : ∀ leg ∈ legs, leg.confidence = "low" ∨ leg.confidence = "medium" ∨
      leg.confidence = "high") :
    map_except leg_from_json (legs.map leg_to_json) = .ok legs := by
  induction legs with
  | nil => rfl
  | cons a t ih =>
    simp only [List.map_cons, map_except]
    rw [leg_from_json_round a (h a (by simp))]
    rw [ih (fun leg hl => h leg (by simp [hl]))]

lemma set_defaults_result (r : ParlayResult) :
    set_defaults (result_to_json r) = result_to_json r := rfl

lemma model_validate_round (r : ParlayResult)
    (h : ∀ leg ∈ r.parlay, leg.confidence = "low" ∨ leg.confidence = "medium" ∨
      leg.confidence = "high") :
    model_validate_result (result_to_json r) = .ok r := by
  have hm := map_except_legs_round r.parlay h
  have h1 : obj_get_last [("parlay", Json.arr (r.parlay.map leg_to_json)),
      ("rationales", Json.arr (r.rationales.map Json.str)), ("risks", Json.str r.risks),
      ("sources", Json.arr (r.sources.map Json.str))] "parlay"
      = some (Json.arr (r.parlay.map leg_to_json)) := rfl
  have h2 : obj_get_last [("parlay", Json.arr (r.parlay.map leg_to_json)),
      ("rationales", Json.arr (r.rationales.map Json.str)), ("risks", Json.str r.risks),
      ("sources", Json.arr (r.sources.map Json.str))] "rationales"
      = some (Json.arr (r.rationales.map Json.str)) := rfl
  have h3 : obj_get_last [("parlay", Json.arr (r.parlay.map leg_to_json)),
      ("rationales", Json.arr (r.rationales.map Json.str)), ("risks", Json.str r.risks),
      ("sources", Json.arr (r.sources.map Json.str))] "risks" = some (Json.str r.risks) := rfl
  have h4 : obj_get_last [("parlay", Json.arr (r.parlay.map leg_to_json)),
      ("rationales", Json.arr (r.rationales.map Json.str)), ("risks", Json.str r.risks),
      ("sources", Json.arr (r.sources.map Json.str))] "sources"
      = some (Json.arr (r.sources.map Json.str)) := rfl
  unfold result_to_json model_validate_result
  simp only [h1, h2, h3, h4, as_str, as_str_list_map_str, hm]

/-- C6 amended: for a JSON text serializing a schema-valid ResearchResult
object (already-normalized confidences), the Extract-then-Validate round
trip is the identity provided the repairs do not touch the text: the text
starts with `{` and ends with `}`, contains no code-fence marker, the
trailing-comma repair leaves it unchanged (no comma directly before a
closing brace/bracket, even inside string values), and the single-quote
repair does not fire.  The original claim fails without these provisos
(see the counterexample). -/
theorem C6_amended (s : String) (r : ParlayResult)
    (hparse : json_parse_chars s.toList = some (result_to_json r))
    (hhead : s.toList.head? = some lb)
    (hlast : s.toList.getLast? = some rb)
    (hfence : after_marker fence_pat s.toList = none)
    (hcomma : remove_trailing_commas s.toList = s.toList)
    (hquote : (s.toList.take 80).contains qc = true ∨ s.toList.contains sq = false)
    (hconf : ∀ leg ∈ r.parlay, leg.confidence = "low" ∨ leg.confidence = "medium" ∨
      leg.confidence = "high") :
    extract_then_validate s = some (.ok r) := by
  have hstrip := py_strip_eq_self s.toList hhead hlast
  have hiso := isolate_span_eq_self s.toList hhead hlast
  unfold extract_then_validate extract_json_from_text
  simp only [hstrip, strip_fences_of_no_marker _ hfence, hiso, hcomma,
    quote_convert_noop _ hquote, try_parse, hparse, Option.map_some']
  rw [show wrap_top_level (result_to_json r) = result_to_json r from rfl,
    set_defaults_result r, model_validate_round r hconf]

/-- Serialization of a one-leg schema-valid result, used as the C6 witness
input. -/
def c6_wit_text : String :=
  "\x7b\"parlay\": [\x7b\"market\": \"moneyline\", \"selection\": \"BOS ML\", \"book_examples\": [\"DK\"], \"confidence\": \"high\"\x7d], \"rationales\": [\"r1\"], \"risks\": \"x\", \"sources\": [\"u\"]\x7d"

/-- The one-leg schema-valid result serialized by `c6_wit_text`. -/
def c6_wit_result : ParlayResult :=
  ⟨[⟨"moneyline", "BOS ML", ["DK"], "high"⟩], ["r1"], "x", ["u"]⟩

set_option maxRecDepth 40000 in
/-- Witness for C6 amended at the concrete one-leg serialization. -/
theorem C6_amended_witness :
    json_parse_chars c6_wit_text.toList = some (result_to_json c6_wit_result)
    ∧ c6_wit_text.toList.head? = some lb
    ∧ c6_wit_text.toList.getLast? = some rb
    ∧ after_marker fence_pat c6_wit_text.toList = none
    ∧ remove_trailing_commas c6_wit_text.toList = c6_wit_text.toList
    ∧ c6_wit_text.toList.contains sq = false
    ∧ (∀ leg ∈ c6_wit_result.parlay, leg.confidence = "low" ∨ leg.confidence = "medium" ∨
        leg.confidence = "high")
    ∧ extract_then_validate c6_wit_text = some (.ok c6_wit_result) :=
  ⟨rfl, rfl, rfl, rfl, rfl, rfl, by decide,
   C6_amended c6_wit_text c6_wit_result rfl rfl rfl rfl rfl (Or.inr rfl) (by decide)⟩

/-! ## Claim C9 -/

lemma c9_shape_err (msg : String) (h : msg ≠ "") :
    ((none : Option ParlayResult).isSome ↔ (some msg : Option String) = none)
    ∧ (∀ s, (some msg : Option String) = some s → s ≠ "") := by
  constructor
  · simp
  · intro s hs
    injection hs with hs
    rw [← hs]
    exact h

lemma c9_shape_res (r : ParlayResult) :
    ((some r : Option ParlayResult).isSome ↔ (none : Option String) = none)
    ∧ (∀ s, (none : Option String) = some s → s ≠ "") := by
  constructor
  · simp
  · intro s hs
    cases hs

/-- C9: every execution of `run_deep_research` returns exactly one of a
result and an error — a `some` result with `none` error, or a `none` result
with a non-empty error string; never both set and never both absent. -/
theorem C9_exactly_one_of_pair (q : String) (call : CallResult) :
    ((run_deep_research q call).1.isSome ↔ (run_deep_research q call).2 = none)
    ∧ (∀ s, (run_deep_research q call).2 = some s → s ≠ "") := by
  unfold run_deep_research
  split
  · exact c9_shape_err _ (by decide)
  · split
    · exact c9_shape_err _ (string_append_ne_empty _ _ (by decide))
    · exact c9_shape_err _ (by decide)
    · split
      · exact c9_shape_err _
          (string_append_ne_empty _ _ (string_append_ne_empty _ _
            (string_append_ne_empty _ _ (by decide))))
      · split
        · exact c9_shape_res _
        · split
          · exact c9_shape_res _
          · exact c9_shape_err _
              (string_append_ne_empty _ _ (string_append_ne_empty _ _
                (string_append_ne_empty _ _ (string_append_ne_empty _ _
                  (string_append_ne_empty _ _ (by decide))))))

/-- Witness for C9 at an execution that produces an error. -/
theorem C9_witness :
    ((run_deep_research "" (.ok none)).1.isSome ↔ (run_deep_research "" (.ok none)).2 = none)
    ∧ "Please specify what you want researched (teams, props, angles)." ≠ "" :=
  ⟨(C9_exactly_one_of_pair "" (.ok none)).1,
   (C9_exactly_one_of_pair "" (.ok none)).2 _ rfl⟩

end GoodGuyBot
